import Mathlib

/-!
# Verification of Tufao's `SessionSettings` (src/src/sessionsettings.h)

Shallow embedding of the `Tufao::SessionSettings` struct and its cookie
derivation function, together with the path-inclusion rule documented on the
`path` field.

Modelling conventions:
* `QByteArray` values (cookie names, values, paths, domains) are lists of
  characters; the only operations the code uses on them are equality,
  emptiness, prefix tests, and dropping the first byte.
* `QDateTime::currentDateTimeUtc()` is modelled by an explicit `now : Int`
  parameter (seconds of UTC time at the moment of the call); `addSecs`
  becomes integer addition.
* `settings.timeout` is a C `int`; the product `settings.timeout * 60` is
  32-bit signed arithmetic, modelled by two's-complement wrapping `wrap32`
  (the de-facto behaviour of the compilers Qt targets).  The wrapped sum is
  then widened to `qint64` by `addSecs`, with no further wrapping.
* A default-constructed `QNetworkCookie` is a session cookie: no expiration
  date, `httpOnly` and `secure` false, no domain and no path, empty name and
  value.  Attributes that the C++ code sets only conditionally are modelled
  as `Option`s, `none` meaning "attribute left unset".
-/

namespace Tufao

/-- Bytes of a Qt `QByteArray`, modelled as a list of characters. -/
abbrev QByteArray := List Char

/-- The fields of `Tufao::SessionSettings`, in declaration order. -/
structure SessionSettings where
  timeout : Int
  httpOnly : Bool
  name : QByteArray
  path : QByteArray
  secure : Bool
  domain : QByteArray
deriving Repr, DecidableEq

/-- The part of `QNetworkCookie` the code manipulates.  `expirationDate` is
`none` for a session cookie; `domain`/`path` are `none` when the attribute
was never set. -/
structure QNetworkCookie where
  expirationDate : Option Int
  httpOnly : Bool
  secure : Bool
  domain : Option QByteArray
  path : Option QByteArray
  name : QByteArray
  value : QByteArray
deriving Repr, DecidableEq

/-- `QNetworkCookie cookie;` — the default-constructed session cookie. -/
def QNetworkCookie.mkDefault : QNetworkCookie :=
  { expirationDate := none, httpOnly := false, secure := false,
    domain := none, path := none, name := [], value := [] }

/-- `QNetworkCookie::setExpirationDate`. -/
def QNetworkCookie.setExpirationDate (c : QNetworkCookie) (t : Int) :
    QNetworkCookie :=
  { c with expirationDate := some t }

/-- `QNetworkCookie::setHttpOnly`. -/
def QNetworkCookie.setHttpOnly (c : QNetworkCookie) (b : Bool) :
    QNetworkCookie :=
  { c with httpOnly := b }

/-- `QNetworkCookie::setSecure`. -/
def QNetworkCookie.setSecure (c : QNetworkCookie) (b : Bool) :
    QNetworkCookie :=
  { c with secure := b }

/-- `QNetworkCookie::setDomain`. -/
def QNetworkCookie.setDomain (c : QNetworkCookie) (d : QByteArray) :
    QNetworkCookie :=
  { c with domain := some d }

/-- `QNetworkCookie::setPath`. -/
def QNetworkCookie.setPath (c : QNetworkCookie) (p : QByteArray) :
    QNetworkCookie :=
  { c with path := some p }

/-- `QNetworkCookie::setName`. -/
def QNetworkCookie.setName (c : QNetworkCookie) (n : QByteArray) :
    QNetworkCookie :=
  { c with name := n }

/-- `QNetworkCookie::setValue`. -/
def QNetworkCookie.setValue (c : QNetworkCookie) (v : QByteArray) :
    QNetworkCookie :=
  { c with value := v }

/-- Two's-complement wrap of an integer into the 32-bit signed range
`[-2^31, 2^31)` — the de-facto result of an overflowing `int` product. -/
def wrap32 (x : Int) : Int :=
  (x + 2 ^ 31) % 2 ^ 32 - 2 ^ 31

/-- `static QNetworkCookie SessionSettings::cookie(const SessionSettings &,
const QByteArray &value = QByteArray())`.  `now` is the reading of
`QDateTime::currentDateTimeUtc()` at the moment of the call, in seconds. -/
def SessionSettings.cookie (now : Int) (settings : SessionSettings)
    (value : QByteArray := []) : QNetworkCookie :=
  let cookie := QNetworkCookie.mkDefault
  let cookie := if settings.timeout ≠ 0 then
      cookie.setExpirationDate (now + wrap32 (settings.timeout * 60))
    else cookie
  let cookie := cookie.setHttpOnly settings.httpOnly
  let cookie := cookie.setSecure settings.secure
  let cookie := if !settings.domain.isEmpty then
      cookie.setDomain settings.domain
    else cookie
  let cookie := if !settings.path.isEmpty then
      cookie.setPath settings.path
    else cookie
  let cookie := cookie.setName settings.name
  let cookie := cookie.setValue value
  cookie

/-- `QNetworkCookie SessionSettings::cookie(const QByteArray &value =
QByteArray()) const` — the instance method; it forwards to the static
overload with `*this`. -/
def SessionSettings.cookieSelf (now : Int) (s : SessionSettings)
    (value : QByteArray := []) : QNetworkCookie :=
  SessionSettings.cookie now s value

/-- The path-inclusion rule documented on `SessionSettings::path`: the cookie
is included in a request iff `cookiePath == requestPath`, or
`requestPath.startsWith(cookiePath)`, or
`requestPath[0] == '/' && requestPath.mid(1).startsWith(cookiePath)`. -/
def SessionSettings.pathMatches (cookiePath requestPath : QByteArray) : Bool :=
  cookiePath == requestPath
  || cookiePath.isPrefixOf requestPath
  || (requestPath.take 1 == ['/'] && cookiePath.isPrefixOf (requestPath.drop 1))

/-! ## Basic characterisation lemmas (shared helpers) -/

/-- Closed form of the cookie derivation: the let-chain of conditional setter
calls assembles exactly this record. -/
theorem cookie_closed_form (now : Int) (s : SessionSettings) (v : QByteArray) :
    SessionSettings.cookie now s v =
      { expirationDate :=
          if s.timeout ≠ 0 then some (now + wrap32 (s.timeout * 60)) else none,
        httpOnly := s.httpOnly,
        secure := s.secure,
        domain := if s.domain.isEmpty then none else some s.domain,
        path := if s.path.isEmpty then none else some s.path,
        name := s.name,
        value := v } := by
  unfold SessionSettings.cookie
  simp only [QNetworkCookie.mkDefault, QNetworkCookie.setExpirationDate,
    QNetworkCookie.setHttpOnly, QNetworkCookie.setSecure,
    QNetworkCookie.setDomain, QNetworkCookie.setPath,
    QNetworkCookie.setName, QNetworkCookie.setValue, Bool.not_eq_true']
  split_ifs <;> simp_all

/-- `wrap32` always lands in the 32-bit signed range. -/
theorem wrap32_mem_range (x : Int) :
    -2 ^ 31 ≤ wrap32 x ∧ wrap32 x < 2 ^ 31 := by
  unfold wrap32
  constructor
  · have h := Int.emod_nonneg (x + 2 ^ 31) (by norm_num : (2 ^ 32 : Int) ≠ 0)
    omega
  · have h := Int.emod_lt_of_pos (x + 2 ^ 31) (by norm_num : (0 : Int) < 2 ^ 32)
    omega

/-- `wrap32 x` is congruent to `x` modulo `2 ^ 32`. -/
theorem wrap32_emod (x : Int) : wrap32 x % 2 ^ 32 = x % 2 ^ 32 := by
  unfold wrap32
  omega

/-- `wrap32` is the identity on the 32-bit signed range. -/
theorem wrap32_eq_self (x : Int) (h₁ : -2 ^ 31 ≤ x) (h₂ : x < 2 ^ 31) :
    wrap32 x = x := by
  unfold wrap32
  rw [Int.emod_eq_of_lt (by omega) (by omega)]
  omega

/-- `wrap32` moves every integer outside the 32-bit signed range. -/
theorem wrap32_ne_self (x : Int) (h : x < -2 ^ 31 ∨ 2 ^ 31 ≤ x) :
    wrap32 x ≠ x := by
  have hr := wrap32_mem_range x
  omega

/-! ## Claims -/

/-- Claim C2: the derived cookie carries a path exactly when the policy path
is non-empty (and then equals it), and carries a domain exactly when the
policy domain is non-empty (and then equals it); when the corresponding
policy field is empty, the attribute is left unset. -/
theorem claim_C2 (now : Int) (s : SessionSettings) (v : QByteArray) :
    (SessionSettings.cookie now s v).path
      = (if s.path.isEmpty then none else some s.path)
    ∧ (SessionSettings.cookie now s v).domain
      = (if s.domain.isEmpty then none else some s.domain)
    ∧ ((SessionSettings.cookie now s v).path).isSome = !s.path.isEmpty
    ∧ ((SessionSettings.cookie now s v).domain).isSome = !s.domain.isEmpty := by
  rw [cookie_closed_form]
  refine ⟨rfl, rfl, ?_, ?_⟩ <;> · dsimp only; split_ifs <;> simp_all

/-- Claim C3: for all four combinations of the two boolean policy fields, the
derived cookie's `httpOnly` equals the policy's `httpOnly` and its `secure`
equals the policy's `secure`. -/
theorem claim_C3 (now t : Int) (ho sec : Bool) (nm p d v : QByteArray) :
    (SessionSettings.cookie now ⟨t, ho, nm, p, sec, d⟩ v).httpOnly = ho
    ∧ (SessionSettings.cookie now ⟨t, ho, nm, p, sec, d⟩ v).secure = sec := by
  rw [cookie_closed_form]
  exact ⟨rfl, rfl⟩

/-- Claim C4: the derived cookie's name equals the policy's name and its value
equals the `value` argument; when the argument is omitted, the C++ default
argument `QByteArray()` makes the derived value the empty byte-string. -/
theorem claim_C4 (now : Int) (s : SessionSettings) (v : QByteArray) :
    (SessionSettings.cookie now s v).name = s.name
    ∧ (SessionSettings.cookie now s v).value = v
    ∧ (SessionSettings.cookie now s).value = [] := by
  rw [cookie_closed_form, cookie_closed_form]
  exact ⟨rfl, rfl, rfl⟩

/-- Claim C5: the instance-method form returns the same cookie as the static
form at the same policy, value and clock reading, including with the value
argument omitted. -/
theorem claim_C5 (now : Int) (s : SessionSettings) (v : QByteArray) :
    SessionSettings.cookieSelf now s v = SessionSettings.cookie now s v
    ∧ SessionSettings.cookieSelf now s = SessionSettings.cookie now s :=
  ⟨rfl, rfl⟩

/-- Claim C6: derivation is total with no error path: for every policy and
value it returns the assembled cookie below, and a policy with an empty name
is not validated or rejected — the cookie simply carries the empty name. -/
theorem claim_C6 (now : Int) (s : SessionSettings) (v : QByteArray) :
    (SessionSettings.cookie now s v =
      { expirationDate :=
          if s.timeout ≠ 0 then some (now + wrap32 (s.timeout * 60)) else none,
        httpOnly := s.httpOnly,
        secure := s.secure,
        domain := if s.domain.isEmpty then none else some s.domain,
        path := if s.path.isEmpty then none else some s.path,
        name := s.name,
        value := v })
    ∧ (SessionSettings.cookie now
        ⟨s.timeout, s.httpOnly, [], s.path, s.secure, s.domain⟩ v).name = [] := by
  refine ⟨cookie_closed_form now s v, ?_⟩
  rw [cookie_closed_form]

/-- Claim C7: the documented path-matching rule holds exactly when the request
path equals the cookie path, starts with it, or starts with a slash and, with
that first character removed, starts with it; for cookie path `"/foo"` the
request paths `"/foo"`, `"/foo/bar"` and `"//foo"` match while `"/bar"` does
not. -/
theorem claim_C7 :
    (∀ cookiePath requestPath : QByteArray,
      SessionSettings.pathMatches cookiePath requestPath = true ↔
        (requestPath = cookiePath ∨ cookiePath <+: requestPath ∨
          (requestPath.take 1 = ['/'] ∧ cookiePath <+: requestPath.drop 1)))
    ∧ SessionSettings.pathMatches "/foo".toList "/foo".toList = true
    ∧ SessionSettings.pathMatches "/foo".toList "/foo/bar".toList = true
    ∧ SessionSettings.pathMatches "/foo".toList "//foo".toList = true
    ∧ SessionSettings.pathMatches "/foo".toList "/bar".toList = false := by
  refine ⟨?_, by decide, by decide, by decide, by decide⟩
  intro cp rp
  unfold SessionSettings.pathMatches
  simp only [Bool.or_eq_true, Bool.and_eq_true, beq_iff_eq,
    List.isPrefixOf_iff_prefix]
  tauto

/-- Claim C8: derivation is deterministic up to the clock: it is a function of
the policy, the value and the clock reading alone, and two derivations from
the same policy and value can differ at most in the expiration field. -/
theorem claim_C8 (n₁ n₂ : Int) (s : SessionSettings) (v : QByteArray) :
    SessionSettings.cookie n₁ s v = SessionSettings.cookie n₁ s v
    ∧ { SessionSettings.cookie n₁ s v with
          expirationDate := (SessionSettings.cookie n₂ s v).expirationDate }
        = SessionSettings.cookie n₂ s v := by
  refine ⟨rfl, ?_⟩
  rw [cookie_closed_form, cookie_closed_form]

/-- Claim C1, counterexample: at `timeout = 35791395` the product
`timeout * 60 = 2147483700` overflows the 32-bit `int`, so the derived
cookie's expiration is `now - 2147483596`, not `now + timeout * 60`
(`now = 0` here). -/
theorem claim_C1_counterexample :
    (SessionSettings.cookie 0 ⟨35791395, false, [], [], false, []⟩
        []).expirationDate = some (-2147483596)
    ∧ (0 : Int) + 35791395 * 60 = 2147483700
    ∧ (SessionSettings.cookie 0 ⟨35791395, false, [], [], false, []⟩
        []).expirationDate ≠ some ((0 : Int) + 35791395 * 60) := by
  refine ⟨by decide, by decide, ?_⟩
  intro h
  exact absurd h (by decide)

/-- Claim C1, amended: the derived cookie has an expiration exactly when
`timeout ≠ 0`; when set, it equals the clock reading of the call plus the
32-bit-wrapped product `timeout * 60` seconds (so freshly recomputed from the
clock on every call, never cached), and this equals `now + timeout * 60`
whenever the product fits the 32-bit signed range. -/
theorem claim_C1_amended (now : Int) (s : SessionSettings) (v : QByteArray) :
    ((SessionSettings.cookie now s v).expirationDate = none ↔ s.timeout = 0)
    ∧ (s.timeout ≠ 0 →
        (SessionSettings.cookie now s v).expirationDate
          = some (now + wrap32 (s.timeout * 60)))
    ∧ (s.timeout ≠ 0 → -2 ^ 31 ≤ s.timeout * 60 → s.timeout * 60 < 2 ^ 31 →
        (SessionSettings.cookie now s v).expirationDate
          = some (now + s.timeout * 60)) := by
  rw [cookie_closed_form]
  refine ⟨?_, ?_, ?_⟩
  · split_ifs with h <;> simp_all
  · intro h
    simp [h]
  · intro h h₁ h₂
    rw [if_pos h, wrap32_eq_self _ h₁ h₂]

/-- Witness for the amended claim C1 at `timeout = 30`, `now = 7`. -/
theorem claim_C1_amended_witness :
    ((30 : Int) ≠ 0 ∧ -2 ^ 31 ≤ (30 : Int) * 60 ∧ (30 : Int) * 60 < 2 ^ 31)
    ∧ (SessionSettings.cookie 7 ⟨30, false, [], [], false, []⟩
        []).expirationDate = some (7 + 30 * 60) :=
  ⟨⟨by decide, by decide, by decide⟩,
    (claim_C1_amended 7 ⟨30, false, [], [], false, []⟩ []).2.2
      (by decide) (by decide) (by decide)⟩

/-- Claim C9, counterexample: at the strictly negative
`timeout = -35791395` the product `timeout * 60 = -2147483700` overflows the
32-bit `int` and wraps to `2147483596`, so the derived cookie's expiration is
`now + 2147483596` — not strictly before the current time (`now = 0` here). -/
theorem claim_C9_counterexample :
    (SessionSettings.cookie 0 ⟨-35791395, false, [], [], false, []⟩
        []).expirationDate = some 2147483596
    ∧ (0 : Int) ≤ 2147483596 :=
  ⟨by decide, by decide⟩

/-- Claim C9, amended: for every policy whose timeout is strictly negative and
of magnitude at most `INT_MAX / 60 = 35791394` (so that `timeout * 60` does
not overflow the 32-bit `int`), the derived cookie has an expiration set —
the guard tests non-zero, not positive — and that expiration lies strictly
before the current time: the cookie is already expired at issuance. -/
theorem claim_C9_amended (now : Int) (s : SessionSettings) (v : QByteArray)
    (hneg : s.timeout < 0) (hmag : -35791394 ≤ s.timeout) :
    (SessionSettings.cookie now s v).expirationDate
      = some (now + s.timeout * 60)
    ∧ now + s.timeout * 60 < now := by
  rw [cookie_closed_form]
  rw [if_pos (by omega : s.timeout ≠ 0), wrap32_eq_self _ (by omega) (by omega)]
  exact ⟨rfl, by omega⟩

/-- Witness for the amended claim C9 at `timeout = -1`, `now = 0`. -/
theorem claim_C9_amended_witness :
    ((-1 : Int) < 0 ∧ -35791394 ≤ (-1 : Int))
    ∧ ((SessionSettings.cookie 0 ⟨-1, false, [], [], false, []⟩
          []).expirationDate = some (0 + -1 * 60)
        ∧ (0 : Int) + -1 * 60 < 0) :=
  ⟨⟨by decide, by decide⟩,
    claim_C9_amended 0 ⟨-1, false, [], [], false, []⟩ [] (by decide) (by decide)⟩

/-- Claim C10: the offset `settings.timeout * 60` is 32-bit signed arithmetic:
whenever the timeout exceeds `INT_MAX / 60 = 35791394` in magnitude, the
product wraps modulo `2 ^ 32`, so the derived expiration is congruent to
`now + timeout * 60` modulo `2 ^ 32` but does not equal it. -/
theorem claim_C10 (now : Int) (s : SessionSettings) (v : QByteArray)
    (h : 35791394 < s.timeout.natAbs) :
    (SessionSettings.cookie now s v).expirationDate
      = some (now + wrap32 (s.timeout * 60))
    ∧ (now + wrap32 (s.timeout * 60)) % 2 ^ 32 = (now + s.timeout * 60) % 2 ^ 32
    ∧ now + wrap32 (s.timeout * 60) ≠ now + s.timeout * 60 := by
  rw [cookie_closed_form]
  refine ⟨by rw [if_pos (by omega : s.timeout ≠ 0)], ?_, ?_⟩
  · exact Int.ModEq.add_left now (wrap32_emod (s.timeout * 60))
  · have hne := wrap32_ne_self (s.timeout * 60) (by omega)
    intro heq
    exact hne (by omega)

/-- Witness for claim C10 at `timeout = 35791395`, `now = 0`. -/
theorem claim_C10_witness :
    35791394 < (35791395 : Int).natAbs
    ∧ ((SessionSettings.cookie 0 ⟨35791395, false, [], [], false, []⟩
          []).expirationDate = some (0 + wrap32 (35791395 * 60))
        ∧ (0 + wrap32 ((35791395 : Int) * 60)) % 2 ^ 32
            = (0 + (35791395 : Int) * 60) % 2 ^ 32
        ∧ 0 + wrap32 ((35791395 : Int) * 60) ≠ 0 + (35791395 : Int) * 60) :=
  ⟨by decide, claim_C10 0 ⟨35791395, false, [], [], false, []⟩ [] (by decide)⟩

end Tufao
